import Mathlib

/-!
Verification of the dual anomaly-classification pipeline of
`PowerGrid-Anomaly-Detection-and-Prediction` (`src/app.py`).

The embedding below translates the two classification endpoints
(`physical_predictor`, app.py:136-208, and `cyber_predictor`,
app.py:234-304), the model registry layout (app.py:25-47), and the
event-log SQL (app.py:68-98, 195-207, 291-303) into executable Lean
definitions.

Real-valued quantities (Python floats) are modelled with exact rational
arithmetic via the `Frac` type (an explicit numerator/denominator pair
that the kernel can evaluate); IEEE-754 rounding is not modelled.
Statistical sub-components (scalers, detectors, encoders) are opaque
functions that may fail, mirroring the fact that `joblib`-loaded models
are external artifacts whose calls can raise.
-/

deriving instance DecidableEq for Except

/-! ## String helpers (Python `str.upper`, substring `in`) -/

/-- `s.upper()` on the underlying character list. -/
def strUpper (s : String) : String := String.mk (s.data.map Char.toUpper)

/-- Does `hay` contain `needle` as a contiguous substring (Python `needle in hay`)? -/
def hasSubListB (needle : List Char) : List Char → Bool
  | [] => needle.isEmpty
  | c :: t => needle.isPrefixOf (c :: t) || hasSubListB needle t

/-- Python `needle in hay` for strings. -/
def strHas (hay needle : String) : Bool := hasSubListB needle.data hay.data

/-! ## Exact rational values

`Frac` is an unnormalised fraction: an integer numerator over a natural
denominator. Every constructor in this file produces a positive
denominator. `toRat` interprets a `Frac` in `ℚ`; the comparison
operations are proved (below, in the theorems section) to agree with the
rational order whenever denominators are positive. -/

structure Frac where
  num : Int
  den : Nat
deriving DecidableEq, Repr

/-- Embed an integer. -/
def Frac.ofInt (n : Int) : Frac := ⟨n, 1⟩

/-- Exact product. -/
def Frac.mul (a b : Frac) : Frac := ⟨a.num * b.num, a.den * b.den⟩

/-- Exact sum. -/
def Frac.add (a b : Frac) : Frac :=
  ⟨a.num * (b.den : Int) + b.num * (a.den : Int), a.den * b.den⟩

/-- Exact difference. -/
def Frac.sub (a b : Frac) : Frac :=
  ⟨a.num * (b.den : Int) - b.num * (a.den : Int), a.den * b.den⟩

/-- `a ≤ b` by cross-multiplication (correct for positive denominators). -/
def Frac.ble (a b : Frac) : Bool :=
  decide (a.num * (b.den : Int) ≤ b.num * (a.den : Int))

/-- `a < b` by cross-multiplication (correct for positive denominators). -/
def Frac.blt (a b : Frac) : Bool :=
  decide (a.num * (b.den : Int) < b.num * (a.den : Int))

/-- Interpretation in `ℚ`. -/
def Frac.toRat (a : Frac) : ℚ := (a.num : ℚ) / (a.den : ℚ)

/-! ## Numeric form-field coercion

Models Python `int(...)` / `float(...)` applied to the raw form strings
(app.py:144-150, 245), on plain decimal literals (optional leading `-`,
digits, optional fractional part); exotic float syntax (exponents,
`inf`, embedded whitespace) is out of scope and treated as malformed. -/

/-- Value of a decimal digit, if `c` is one. -/
def digitVal? (c : Char) : Option Nat :=
  if c.isDigit then some (c.toNat - 48) else none

/-- Accumulate a digit string left-to-right; fails on a non-digit. -/
def digitsVal : List Char → Nat → Option Nat
  | [], acc => some acc
  | c :: t, acc =>
    match digitVal? c with
    | some d => digitsVal t (acc * 10 + d)
    | none => none

/-- Parse a non-empty all-digit string. -/
def digitsToNat? : List Char → Option Nat
  | [] => none
  | c :: t => digitsVal (c :: t) 0

/-- Split at the first `.`, keeping the part before and (optionally) after. -/
def breakDot : List Char → List Char × Option (List Char)
  | [] => ([], none)
  | c :: t =>
    if c = '.' then ([], some t)
    else
      let p := breakDot t
      (c :: p.1, p.2)

/-- Parse an unsigned decimal literal (`"12"`, `"12.5"`) into a `Frac`. -/
def parseUnsignedFrac? (cs : List Char) : Option Frac :=
  let p := breakDot cs
  match p.2 with
  | none => (digitsToNat? p.1).map (fun n => ⟨(n : Int), 1⟩)
  | some fp =>
    match digitsToNat? p.1, digitsToNat? fp with
    | some n, some f =>
      some ⟨(n : Int) * ((10 ^ fp.length : Nat) : Int) + (f : Int), 10 ^ fp.length⟩
    | _, _ => none

/-- Python `float(s)` on plain decimal literals. -/
def parseFloat? (s : String) : Option Frac :=
  match s.data with
  | '-' :: rest => (parseUnsignedFrac? rest).map (fun q => ⟨-q.num, q.den⟩)
  | cs => parseUnsignedFrac? cs

/-- Python `int(s)` on plain decimal literals. -/
def parseInt? (s : String) : Option Int :=
  match s.data with
  | '-' :: rest => (digitsToNat? rest).map (fun n => -(n : Int))
  | cs => (digitsToNat? cs).map (fun n => (n : Int))

/-! ## Request forms

`request.form` is a string-keyed map; `request.form[k]` raises on a
missing key, and `int(...)`/`float(...)` raise on non-numeric text.
Either exception is caught by the endpoint's `except` clause
(app.py:203, 299), so both are modelled as `Except.error` carrying the
error message text (message wording is modelled, not byte-exact). -/

/-- `request.form[k]`: the value, or an error for a missing field. -/
def formGet (form : List (String × String)) (k : String) : Except String String :=
  match form.lookup k with
  | some v => .ok v
  | none => .error ("400 Bad Request: missing form field " ++ k)

/-- `int(request.form[k])`. -/
def formInt (form : List (String × String)) (k : String) : Except String Int := do
  let s ← formGet form k
  match parseInt? s with
  | some n => .ok n
  | none => .error ("invalid literal for int() with base 10: " ++ s)

/-- `float(request.form[k])`. -/
def formFloat (form : List (String × String)) (k : String) : Except String Frac := do
  let s ← formGet form k
  match parseFloat? s with
  | some q => .ok q
  | none => .error ("could not convert string to float: " ++ s)

/-! ## Model registry (app.py:25-47)

`models["phys"]` may or may not contain the keys `"zone_models"` /
`"zone_scalers"` (both set only if the physical artifact load at
app.py:32-37 succeeded); each maps zone ids to fitted objects.
`models["cyber"]` may or may not contain `"rf"`, `"scaler"`,
`"encoders"`. Fitted objects are opaque: their inference calls either
return a value or raise, modelled with `Except`. -/

/-- A fitted per-zone scaler: `scaler.transform(features)` (app.py:186). -/
structure Scaler where
  transform : List Frac → Except String (List Frac)

/-- A fitted per-zone detector: `model.predict(X)[0]` (app.py:187). -/
structure Detector where
  predict : List Frac → Except String Int

/-- The `models["phys"]` dictionary: `none` = key absent. -/
structure PhysModels where
  zone_models : Option (List (Int × Detector))
  zone_scalers : Option (List (Int × Scaler))

/-- `"zone_models" in models["phys"] and loc in models["phys"]["zone_models"]`
    (app.py:154). -/
def physZoneRegistered (m : PhysModels) (loc : Int) : Bool :=
  match m.zone_models with
  | none => false
  | some zm => (zm.lookup loc).isSome

/-- A fitted per-column label encoder: `encoders[col].transform(...)`
    (app.py:276), which raises on an unseen category. -/
structure Encoder where
  transform : String → Except String Int

/-- The assembled cyber feature record after categorical encoding
    (the DataFrame of app.py:257-280). Field names follow the
    `input_data` dictionary keys. -/
structure CyberFeats where
  Source_IP : Int
  Destination_IP : Int
  Port : Frac
  Protocol : Int
  Packet_Size : Frac
  Duration : Frac
  Attack_Type : Int
  Packet_Loss : Frac
  Latency : Frac
  Throughput : Frac
  Jitter : Frac
  Authentication_Failure : Frac
deriving DecidableEq, Repr

/-- The fitted global cyber scaler: `models["cyber"]["scaler"].transform`
    (app.py:282). -/
structure CyberScaler where
  transform : CyberFeats → Except String (List Frac)

/-- The fitted cyber classifier: `models["cyber"]["rf"].predict(...)[0]`
    (app.py:283). -/
structure RFModel where
  predict : List Frac → Except String Int

/-- The `models["cyber"]` dictionary: `none` = key absent. -/
structure CyberModels where
  rf : Option RFModel
  scaler : Option CyberScaler
  encoders : Option (List (String × Encoder))

/-! ## Event log

The two tables `predictions` and `cyber_logs` (app.py:73-95) are
modelled as lists of rows in insertion order. The store assigns ids:
under `AUTOINCREMENT` / `SERIAL` semantics (append-only, no deletes in
scope) the `n`-th inserted row receives id `n`, modelled as
`db.length + 1` at insertion time. Timestamps are store-assigned wall
clock values and are not modelled. -/

/-- The appended data of one physical classification event
    (the INSERT parameters at app.py:195-201). -/
structure PhysEvent where
  sensor_id : Int
  location : Int
  voltage : Frac
  current : Frac
  power : Frac
  prediction_result : String
deriving DecidableEq, Repr

/-- A persisted `predictions` row. -/
structure PhysRow where
  id : Nat
  sensor_id : Int
  location : Int
  voltage : Frac
  current : Frac
  power : Frac
  prediction_result : String
deriving DecidableEq, Repr

/-- Build the row the store creates for event `e` with identity `i`. -/
def physRowOf (i : Nat) (e : PhysEvent) : PhysRow :=
  ⟨i, e.sensor_id, e.location, e.voltage, e.current, e.power, e.prediction_result⟩

/-- `INSERT INTO predictions ... ; commit` (app.py:195-202). -/
def insertPrediction (db : List PhysRow) (e : PhysEvent) : List PhysRow :=
  db ++ [physRowOf (db.length + 1) e]

/-- `SELECT * FROM predictions ORDER BY id DESC LIMIT 10` (app.py:206). -/
def recentPredictions (db : List PhysRow) : List PhysRow :=
  db.reverse.take 10

/-- The appended data of one cyber classification event
    (the INSERT parameters at app.py:291-297). -/
structure CyberEvent where
  source_ip : String
  dest_ip : String
  protocol : String
  packet_len : Frac
  prediction_result : String
deriving DecidableEq, Repr

/-- A persisted `cyber_logs` row. -/
structure CyberRow where
  id : Nat
  source_ip : String
  dest_ip : String
  protocol : String
  packet_len : Frac
  prediction_result : String
deriving DecidableEq, Repr

/-- Build the row the store creates for event `e` with identity `i`. -/
def cyberRowOf (i : Nat) (e : CyberEvent) : CyberRow :=
  ⟨i, e.source_ip, e.dest_ip, e.protocol, e.packet_len, e.prediction_result⟩

/-- `INSERT INTO cyber_logs ... ; commit` (app.py:291-298). -/
def insertCyberLog (db : List CyberRow) (e : CyberEvent) : List CyberRow :=
  db ++ [cyberRowOf (db.length + 1) e]

/-- `SELECT * FROM cyber_logs ORDER BY id DESC LIMIT 10` (app.py:302). -/
def recentCyberLogs (db : List CyberRow) : List CyberRow :=
  db.reverse.take 10

/-- Rows produced by consecutive inserts of `es` when `n` rows already
    exist (generic over the two row types). -/
def mkRows {α β : Type} (rowOf : Nat → α → β) : Nat → List α → List β
  | _, [] => []
  | n, e :: es => rowOf (n + 1) e :: mkRows rowOf (n + 1) es

/-! ## Physical classifier (app.py:136-208) -/

/-- Safe-range constant (app.py:155). -/
def V_MIN : Frac := ⟨210, 1⟩
/-- Safe-range constant (app.py:155). -/
def V_MAX : Frac := ⟨245, 1⟩
/-- Safe-range constant (app.py:156), the literal `2.5`. -/
def I_MIN : Frac := ⟨25, 10⟩
/-- Safe-range constant (app.py:156), the literal `7.5`. -/
def I_MAX : Frac := ⟨75, 10⟩
/-- Safe-range constant (app.py:157), the literal `0.5`. -/
def P_MIN : Frac := ⟨5, 10⟩
/-- Safe-range constant (app.py:157), the literal `1.8`. -/
def P_MAX : Frac := ⟨18, 10⟩
/-- Relative tolerance constant (app.py:158), the literal `0.001`. -/
def BUFFER_PCT : Frac := ⟨1, 1000⟩

/-- `is_normal` (app.py:160-164): all three readings inside the strict
    closed bounds. -/
def is_normal (vol cur pow_ : Frac) : Bool :=
  (Frac.ble V_MIN vol && Frac.ble vol V_MAX) &&
  (Frac.ble I_MIN cur && Frac.ble cur I_MAX) &&
  (Frac.ble P_MIN pow_ && Frac.ble pow_ P_MAX)

/-- `in_moderate_zone` (app.py:166-170): all three readings inside the
    bounds expanded by `BUFFER_PCT` on each side. -/
def in_moderate_zone (vol cur pow_ : Frac) : Bool :=
  (Frac.ble (Frac.mul V_MIN (Frac.sub (Frac.ofInt 1) BUFFER_PCT)) vol &&
     Frac.ble vol (Frac.mul V_MAX (Frac.add (Frac.ofInt 1) BUFFER_PCT))) &&
  (Frac.ble (Frac.mul I_MIN (Frac.sub (Frac.ofInt 1) BUFFER_PCT)) cur &&
     Frac.ble cur (Frac.mul I_MAX (Frac.add (Frac.ofInt 1) BUFFER_PCT))) &&
  (Frac.ble (Frac.mul P_MIN (Frac.sub (Frac.ofInt 1) BUFFER_PCT)) pow_ &&
     Frac.ble pow_ (Frac.mul P_MAX (Frac.add (Frac.ofInt 1) BUFFER_PCT)))

/-- The rule-based tier (app.py:172-177). -/
def physTier (vol cur pow_ : Frac) : String :=
  if is_normal vol cur pow_ then "NORMAL (Safe Range)"
  else if in_moderate_zone vol cur pow_ then "MODERATE ALERT"
  else "CRITICAL ALERT"

/-- The parsed physical request (app.py:144-150). -/
structure PhysInput where
  sensor_id : Int
  location : Int
  voltage : Frac
  current : Frac
  power : Frac
  frequency : Frac
  power_factor : Frac
deriving DecidableEq, Repr

/-- Field extraction and numeric coercion for the physical form, in
    source order (app.py:144-150); the first failure aborts. -/
def parsePhysForm (form : List (String × String)) : Except String PhysInput := do
  let s_id ← formInt form "sensor_id"
  let loc ← formInt form "location"
  let vol ← formFloat form "voltage"
  let cur ← formFloat form "current"
  let pow_ ← formFloat form "power"
  let freq ← formFloat form "frequency"
  let pf ← formFloat form "power_factor"
  .ok ⟨s_id, loc, vol, cur, pow_, freq, pf⟩

/-- The `result` dictionary handed to the template: either the normal
    `{'status', 'voltage', 'current', 'power'}` shape (app.py:193) or
    the bare error shape `{'status': "Error: ..."}` (app.py:204). -/
inductive PhysResult where
  | view (status : String) (voltage current power : Frac)
  | err (status : String)
deriving DecidableEq, Repr

/-- The status string of either result shape. -/
def PhysResult.statusOf : PhysResult → String
  | .view s _ _ _ => s
  | .err s => s

/-- Everything one call to the physical endpoint produces: the rendered
    result, the event-log state after the call, and the displayed
    history. `tier` records the rule tier when the rule stage ran
    (app.py:172-177); `statInvoked` records whether control entered the
    statistical stage (app.py:179-189). Both are instrumentation of
    observable control flow, not extra program state. -/
structure PhysOutcome where
  result : PhysResult
  tier : Option String
  statInvoked : Bool
  db : List PhysRow
  history : List PhysRow
deriving DecidableEq, Repr

/-- The statistical stage of the physical endpoint (app.py:180-189):
    scaler and detector lookups, `scaler.transform`, `model.predict`,
    polarity mapping `-1 ↦ ANOMALY DETECTED (ML)`. Any failure mode is
    an exception; the endpoint has no inner handler here, so the error
    propagates to the outer `except` (app.py:203). -/
def physStatStage (m : PhysModels) (i : PhysInput) : Except String String := do
  let scalers ← match m.zone_scalers with
    | some s => Except.ok s
    | none => Except.error "KeyError: zone_scalers"
  let scaler ← match scalers.lookup i.location with
    | some s => Except.ok s
    | none => Except.error ("KeyError: " ++ toString i.location)
  let zms ← match m.zone_models with
    | some s => Except.ok s
    | none => Except.error "KeyError: zone_models"
  let mdl ← match zms.lookup i.location with
    | some d => Except.ok d
    | none => Except.error ("KeyError: " ++ toString i.location)
  let xs ← scaler.transform
    [i.voltage, i.current, i.power, i.frequency, i.power_factor, Frac.ofInt i.sensor_id]
  let pred ← mdl.predict xs
  .ok (if pred == -1 then "ANOMALY DETECTED (ML)" else "NORMAL (Safe Range)")

/-- The classification body of `physical_predictor` on a successfully
    parsed request (app.py:152-207). -/
def physClassify (m : PhysModels) (i : PhysInput) (db : List PhysRow) : PhysOutcome :=
  if physZoneRegistered m i.location then
    let tier := physTier i.voltage i.current i.power
    if tier == "NORMAL (Safe Range)" then
      match physStatStage m i with
      | .error e =>
        { result := .err ("Error: " ++ e), tier := some tier, statInvoked := true,
          db := db, history := recentPredictions db }
      | .ok status =>
        let db2 := insertPrediction db
          ⟨i.sensor_id, i.location, i.voltage, i.current, i.power, status⟩
        { result := .view status i.voltage i.current i.power, tier := some tier,
          statInvoked := true, db := db2, history := recentPredictions db2 }
    else
      let db2 := insertPrediction db
        ⟨i.sensor_id, i.location, i.voltage, i.current, i.power, tier⟩
      { result := .view tier i.voltage i.current i.power, tier := some tier,
        statInvoked := false, db := db2, history := recentPredictions db2 }
  else
    let status := "Unknown Zone " ++ toString i.location ++ " (No Model)"
    let db2 := insertPrediction db
      ⟨i.sensor_id, i.location, i.voltage, i.current, i.power, status⟩
    { result := .view status i.voltage i.current i.power, tier := none,
      statInvoked := false, db := db2, history := recentPredictions db2 }

/-- One POST to `/physical/predictor` (app.py:136-208): parse the form;
    a parse failure is caught by the outer `except` and surfaced as an
    error result without touching the log; otherwise classify. -/
def physical_predictor (m : PhysModels) (form : List (String × String))
    (db : List PhysRow) : PhysOutcome :=
  match parsePhysForm form with
  | .error e =>
    { result := .err ("Error: " ++ e), tier := none, statInvoked := false,
      db := db, history := recentPredictions db }
  | .ok i => physClassify m i db

/-! ## Cyber classifier (app.py:234-304) -/

/-- The parsed cyber request (app.py:242-245). -/
structure CyberInput where
  source_ip : String
  dest_ip : String
  protocol : String
  packet_length : Frac
deriving DecidableEq, Repr

/-- Field extraction and numeric coercion for the cyber form, in source
    order (app.py:242-245). -/
def parseCyberForm (form : List (String × String)) : Except String CyberInput := do
  let src ← formGet form "source_ip"
  let dst ← formGet form "dest_ip"
  let proto ← formGet form "protocol"
  let pkt_len ← formFloat form "packet_length"
  .ok ⟨src, dst, proto, pkt_len⟩

/-- Per-column categorical encoding (app.py:273-280): a present encoder
    is attempted, any failure (unseen category) falls back to the code
    `0`; an absent encoder also yields `0`. -/
def encodeCol (encoders : List (String × Encoder)) (col : String) (v : String) : Int :=
  match encoders.lookup col with
  | some enc =>
    match enc.transform v with
    | .ok n => n
    | .error _ => 0
  | none => 0

/-- The fixed-schema feature record of app.py:257-271 with its
    placeholder constants, after the encoding loop of app.py:273-280. -/
def cyberFeatures (encoders : List (String × Encoder))
    (src dst proto : String) (pkt_len : Frac) : CyberFeats :=
  { Source_IP := encodeCol encoders "Source_IP" src
    Destination_IP := encodeCol encoders "Destination_IP" dst
    Port := Frac.ofInt 80
    Protocol := encodeCol encoders "Protocol" proto
    Packet_Size := pkt_len
    Duration := ⟨500, 10⟩
    Attack_Type := encodeCol encoders "Attack_Type" "Normal"
    Packet_Loss := Frac.ofInt 0
    Latency := Frac.ofInt 10
    Throughput := Frac.ofInt 100
    Jitter := Frac.ofInt 5
    Authentication_Failure := Frac.ofInt 0 }

/-- The guarded statistical stage of the cyber endpoint
    (app.py:256-287). The whole block sits in a `try/except` whose
    handler only prints, so any failure leaves the prior
    `"SAFE TRAFFIC"` status in place; a missing scaler skips prediction
    (app.py:281). `pred == 1` flags the hybrid anomaly (app.py:284). -/
def cyberStatStage (rf : RFModel) (encoders : List (String × Encoder))
    (scaler? : Option CyberScaler) (src dst proto : String) (pkt_len : Frac) : String :=
  let feats := cyberFeatures encoders src dst proto pkt_len
  match scaler? with
  | none => "SAFE TRAFFIC"
  | some sc =>
    match sc.transform feats with
    | .error _ => "SAFE TRAFFIC"
    | .ok xs =>
      match rf.predict xs with
      | .error _ => "SAFE TRAFFIC"
      | .ok pred => if pred == 1 then "ANOMALY DETECTED (Hybrid AI)" else "SAFE TRAFFIC"

/-- The `result` dictionary of the cyber endpoint: the normal
    `{"status","src","protocol","len"}` shape (app.py:289) or the bare
    error shape (app.py:300). -/
inductive CyberResult where
  | view (status src protocol : String) (len : Frac)
  | err (status : String)
deriving DecidableEq, Repr

/-- The status string of either result shape. -/
def CyberResult.statusOf : CyberResult → String
  | .view s _ _ _ => s
  | .err s => s

/-- Everything one call to the cyber endpoint produces.
    `hybridConsulted` is instrumentation: it records whether control
    entered the hybrid-model branch (app.py:255-287). -/
structure CyberOutcome where
  result : CyberResult
  hybridConsulted : Bool
  db : List CyberRow
  history : List CyberRow
deriving DecidableEq, Repr

/-- Log the event, build the result view and history (app.py:289-303). -/
def cyberFinish (i : CyberInput) (status : String) (consulted : Bool)
    (db : List CyberRow) : CyberOutcome :=
  let db2 := insertCyberLog db ⟨i.source_ip, i.dest_ip, i.protocol, i.packet_length, status⟩
  { result := .view status i.source_ip i.protocol i.packet_length,
    hybridConsulted := consulted, db := db2, history := recentCyberLogs db2 }

/-- The classification body of `cyber_predictor` on a successfully
    parsed request: the rule chain of app.py:247-254 evaluated in
    priority order with short-circuit, then the guarded hybrid stage,
    then the INSERT (app.py:291-298). -/
def cyberClassify (m : CyberModels) (i : CyberInput) (db : List CyberRow) : CyberOutcome :=
  if Frac.blt (Frac.ofInt 1500) i.packet_length then
    cyberFinish i "MALICIOUS (Oversized Packet)" false db
  else if strHas i.source_ip "666" then
    cyberFinish i "BLACKLISTED IP DETECTED" false db
  else if strUpper i.protocol == "UDP" && Frac.blt (Frac.ofInt 800) i.packet_length then
    cyberFinish i "POSSIBLE DDOS (UDP Flood)" false db
  else
    match m.rf with
    | some rf =>
      cyberFinish i
        (cyberStatStage rf (m.encoders.getD []) m.scaler
          i.source_ip i.dest_ip i.protocol i.packet_length) true db
    | none => cyberFinish i "SAFE TRAFFIC" false db

/-- One POST to `/cyber/predictor` (app.py:234-304): parse the form; a
    parse failure is caught by the outer `except` and surfaced as an
    error result without touching the log; otherwise classify. -/
def cyber_predictor (m : CyberModels) (form : List (String × String))
    (db : List CyberRow) : CyberOutcome :=
  match parseCyberForm form with
  | .error e =>
    { result := .err ("Error: " ++ e), hybridConsulted := false,
      db := db, history := recentCyberLogs db }
  | .ok i => cyberClassify m i db

/-! ## Fixtures used by witnesses and counterexamples -/

/-- A scaler whose transform succeeds and returns its input. -/
def okScaler : Scaler := ⟨fun xs => .ok xs⟩

/-- A detector that always predicts `n`. -/
def constDet (n : Int) : Detector := ⟨fun _ => .ok n⟩

/-- Physical registry with zone 1 fully fitted (detector says inlier). -/
def regZone1 : PhysModels := ⟨some [(1, constDet 1)], some [(1, okScaler)]⟩

/-- Physical registry with zone 1's detector present but its scaler
    missing from the scaler dictionary. -/
def regZone1NoScaler : PhysModels := ⟨some [(1, constDet 1)], some []⟩

/-- A well-formed physical form with an in-bounds reading for zone 1. -/
def goodPhysForm : List (String × String) :=
  [("sensor_id", "7"), ("location", "1"), ("voltage", "220"), ("current", "3.5"),
   ("power", "1.0"), ("frequency", "50"), ("power_factor", "0.9")]

/-- The same reading aimed at zone 99, which no registry entry covers. -/
def zone99PhysForm : List (String × String) :=
  [("sensor_id", "7"), ("location", "99"), ("voltage", "220"), ("current", "3.5"),
   ("power", "1.0"), ("frequency", "50"), ("power_factor", "0.9")]

/-- The parsed value of `goodPhysForm`. -/
def goodPhysInput : PhysInput :=
  ⟨7, 1, ⟨220, 1⟩, ⟨35, 10⟩, ⟨10, 10⟩, ⟨50, 1⟩, ⟨9, 10⟩⟩

/-- `goodPhysInput` re-aimed at zone 2, other fields changed. -/
def goodPhysInputZone2 : PhysInput :=
  ⟨8, 2, ⟨220, 1⟩, ⟨35, 10⟩, ⟨10, 10⟩, ⟨60, 1⟩, ⟨8, 10⟩⟩

/-- Physical registry with zones 1 and 2 fitted. -/
def regZone12 : PhysModels :=
  ⟨some [(1, constDet 1), (2, constDet 1)], some [(1, okScaler), (2, okScaler)]⟩

/-- An empty cyber registry (cyber artifact load failed). -/
def noCyber : CyberModels := ⟨none, none, none⟩

/-- A cyber form: plain TCP packet of length 100. -/
def cyberForm (src proto len : String) : List (String × String) :=
  [("source_ip", src), ("dest_ip", "10.0.0.2"), ("protocol", proto), ("packet_length", len)]

/-- An encoder that fails on every category (all categories unseen). -/
def failEncoder : Encoder := ⟨fun _ => .error "y contains previously unseen labels"⟩

/-- A cyber scaler that succeeds. -/
def okCyberScaler : CyberScaler := ⟨fun f => .ok [f.Packet_Size]⟩

/-- A cyber scaler that raises. -/
def failCyberScaler : CyberScaler := ⟨fun _ => .error "feature mismatch"⟩

/-- A classifier that always returns 1 (anomaly). -/
def rf1 : RFModel := ⟨fun _ => .ok 1⟩

/-- A classifier that always returns 0 (inlier). -/
def rf0 : RFModel := ⟨fun _ => .ok 0⟩

/-- Cyber registry whose scaler raises at inference time. -/
def cyberFailScaler : CyberModels := ⟨some rf1, some failCyberScaler, some []⟩

/-- Cyber registry with a failing Source_IP encoder and an inlier
    classifier. -/
def cyberUnseenEncoder : CyberModels :=
  ⟨some rf0, some okCyberScaler, some [("Source_IP", failEncoder)]⟩

/-- A plain TCP packet form of length 100 and its parsed value. -/
def cform100 : List (String × String) := cyberForm "1.1.1.1" "TCP" "100"

/-- The parsed value of `cform100`. -/
def cin100 : CyberInput := ⟨"1.1.1.1", "10.0.0.2", "TCP", ⟨100, 1⟩⟩

/-- An oversized packet form and its parsed value. -/
def cform1501 : List (String × String) := cyberForm "1.1.1.1" "TCP" "1501"

/-- The parsed value of `cform1501`. -/
def cin1501 : CyberInput := ⟨"1.1.1.1", "10.0.0.2", "TCP", ⟨1501, 1⟩⟩

/-- The parsed value of `zone99PhysForm`. -/
def zone99PhysInput : PhysInput :=
  ⟨7, 99, ⟨220, 1⟩, ⟨35, 10⟩, ⟨10, 10⟩, ⟨50, 1⟩, ⟨9, 10⟩⟩

/-- Sample physical events for the log round-trip. -/
def pe1 : PhysEvent := ⟨7, 1, ⟨220, 1⟩, ⟨35, 10⟩, ⟨10, 10⟩, "NORMAL (Safe Range)"⟩

/-- A second sample physical event. -/
def pe2 : PhysEvent := ⟨8, 2, ⟨2501, 10⟩, ⟨4, 1⟩, ⟨12, 10⟩, "CRITICAL ALERT"⟩

/-- A sample cyber event for the log round-trip. -/
def ce1 : CyberEvent := ⟨"1.1.1.1", "10.0.0.2", "TCP", ⟨100, 1⟩, "SAFE TRAFFIC"⟩

/-! # Theorems -/

/-! ## `Frac` agrees with `ℚ` -/

/-- Cross-multiplied `≤` matches the rational order when denominators
    are positive. -/
theorem Frac.ble_iff (a b : Frac) (ha : 0 < a.den) (hb : 0 < b.den) :
    Frac.ble a b = true ↔ a.toRat ≤ b.toRat := by
  have ha' : (0 : ℚ) < (a.den : ℚ) := by exact_mod_cast ha
  have hb' : (0 : ℚ) < (b.den : ℚ) := by exact_mod_cast hb
  rw [Frac.ble, decide_eq_true_iff, Frac.toRat, Frac.toRat, div_le_div_iff₀ ha' hb']
  constructor
  · intro h; exact_mod_cast h
  · intro h; exact_mod_cast h

/-- Cross-multiplied `<` matches the rational order when denominators
    are positive. -/
theorem Frac.blt_iff (a b : Frac) (ha : 0 < a.den) (hb : 0 < b.den) :
    Frac.blt a b = true ↔ a.toRat < b.toRat := by
  have ha' : (0 : ℚ) < (a.den : ℚ) := by exact_mod_cast ha
  have hb' : (0 : ℚ) < (b.den : ℚ) := by exact_mod_cast hb
  rw [Frac.blt, decide_eq_true_iff, Frac.toRat, Frac.toRat, div_lt_div_iff₀ ha' hb']
  constructor
  · intro h; exact_mod_cast h
  · intro h; exact_mod_cast h

/-- The strict-bounds check is the conjunction of the six rational
    inequalities of app.py:160-164. -/
theorem is_normal_iff (v c p : Frac) (hv : 0 < v.den) (hc : 0 < c.den) (hp : 0 < p.den) :
    is_normal v c p = true ↔
      ((210 : ℚ) ≤ v.toRat ∧ v.toRat ≤ 245) ∧
      ((5 / 2 : ℚ) ≤ c.toRat ∧ c.toRat ≤ 15 / 2) ∧
      ((1 / 2 : ℚ) ≤ p.toRat ∧ p.toRat ≤ 9 / 5) := by
  have e1 : V_MIN.toRat = 210 := by norm_num [Frac.toRat, V_MIN]
  have e2 : V_MAX.toRat = 245 := by norm_num [Frac.toRat, V_MAX]
  have e3 : I_MIN.toRat = 5 / 2 := by norm_num [Frac.toRat, I_MIN]
  have e4 : I_MAX.toRat = 15 / 2 := by norm_num [Frac.toRat, I_MAX]
  have e5 : P_MIN.toRat = 1 / 2 := by norm_num [Frac.toRat, P_MIN]
  have e6 : P_MAX.toRat = 9 / 5 := by norm_num [Frac.toRat, P_MAX]
  rw [is_normal, Bool.and_eq_true, Bool.and_eq_true, Bool.and_eq_true, Bool.and_eq_true,
    Bool.and_eq_true, Frac.ble_iff V_MIN v (by decide) hv, Frac.ble_iff v V_MAX hv (by decide),
    Frac.ble_iff I_MIN c (by decide) hc, Frac.ble_iff c I_MAX hc (by decide),
    Frac.ble_iff P_MIN p (by decide) hp, Frac.ble_iff p P_MAX hp (by decide),
    e1, e2, e3, e4, e5, e6]
  tauto

/-- The buffer-zone check is the conjunction of the six expanded
    rational inequalities of app.py:166-170, with the bounds scaled by
    `1 ∓ 0.001` exactly as the claim states them. -/
theorem in_moderate_zone_iff (v c p : Frac) (hv : 0 < v.den) (hc : 0 < c.den) (hp : 0 < p.den) :
    in_moderate_zone v c p = true ↔
      ((210 * (1 - 1 / 1000) : ℚ) ≤ v.toRat ∧ v.toRat ≤ 245 * (1 + 1 / 1000)) ∧
      ((5 / 2 * (1 - 1 / 1000) : ℚ) ≤ c.toRat ∧ c.toRat ≤ 15 / 2 * (1 + 1 / 1000)) ∧
      ((1 / 2 * (1 - 1 / 1000) : ℚ) ≤ p.toRat ∧ p.toRat ≤ 9 / 5 * (1 + 1 / 1000)) := by
  have c1 : Frac.mul V_MIN (Frac.sub (Frac.ofInt 1) BUFFER_PCT) = ⟨209790, 1000⟩ := by decide
  have c2 : Frac.mul V_MAX (Frac.add (Frac.ofInt 1) BUFFER_PCT) = ⟨245245, 1000⟩ := by decide
  have c3 : Frac.mul I_MIN (Frac.sub (Frac.ofInt 1) BUFFER_PCT) = ⟨24975, 10000⟩ := by decide
  have c4 : Frac.mul I_MAX (Frac.add (Frac.ofInt 1) BUFFER_PCT) = ⟨75075, 10000⟩ := by decide
  have c5 : Frac.mul P_MIN (Frac.sub (Frac.ofInt 1) BUFFER_PCT) = ⟨4995, 10000⟩ := by decide
  have c6 : Frac.mul P_MAX (Frac.add (Frac.ofInt 1) BUFFER_PCT) = ⟨18018, 10000⟩ := by decide
  have e1 : (⟨209790, 1000⟩ : Frac).toRat = 210 * (1 - 1 / 1000) := by norm_num [Frac.toRat]
  have e2 : (⟨245245, 1000⟩ : Frac).toRat = 245 * (1 + 1 / 1000) := by norm_num [Frac.toRat]
  have e3 : (⟨24975, 10000⟩ : Frac).toRat = 5 / 2 * (1 - 1 / 1000) := by norm_num [Frac.toRat]
  have e4 : (⟨75075, 10000⟩ : Frac).toRat = 15 / 2 * (1 + 1 / 1000) := by norm_num [Frac.toRat]
  have e5 : (⟨4995, 10000⟩ : Frac).toRat = 1 / 2 * (1 - 1 / 1000) := by norm_num [Frac.toRat]
  have e6 : (⟨18018, 10000⟩ : Frac).toRat = 9 / 5 * (1 + 1 / 1000) := by norm_num [Frac.toRat]
  rw [in_moderate_zone, c1, c2, c3, c4, c5, c6, Bool.and_eq_true, Bool.and_eq_true,
    Bool.and_eq_true, Bool.and_eq_true, Bool.and_eq_true,
    Frac.ble_iff _ v (by decide) hv, Frac.ble_iff v _ hv (by decide),
    Frac.ble_iff _ c (by decide) hc, Frac.ble_iff c _ hc (by decide),
    Frac.ble_iff _ p (by decide) hp, Frac.ble_iff p _ hp (by decide),
    e1, e2, e3, e4, e5, e6]
  tauto

/-! ## Shape lemmas for the physical endpoint -/

/-- A parsed form reduces the endpoint to the classification body. -/
theorem physical_predictor_parsed (m : PhysModels) (form : List (String × String))
    (db : List PhysRow) (i : PhysInput) (hp : parsePhysForm form = .ok i) :
    physical_predictor m form db = physClassify m i db := by
  unfold physical_predictor
  rw [hp]

/-- A malformed form yields the error result and leaves the log alone. -/
theorem physical_predictor_malformed (m : PhysModels) (form : List (String × String))
    (db : List PhysRow) (msg : String) (hp : parsePhysForm form = .error msg) :
    physical_predictor m form db =
      { result := .err ("Error: " ++ msg), tier := none, statInvoked := false,
        db := db, history := recentPredictions db } := by
  unfold physical_predictor
  rw [hp]

/-- The three-way tier split of app.py:172-177. -/
theorem physTier_cases (v c p : Frac) :
    (is_normal v c p = true ∧ physTier v c p = "NORMAL (Safe Range)") ∨
    (is_normal v c p = false ∧ in_moderate_zone v c p = true ∧
      physTier v c p = "MODERATE ALERT") ∨
    (is_normal v c p = false ∧ in_moderate_zone v c p = false ∧
      physTier v c p = "CRITICAL ALERT") := by
  cases hn : is_normal v c p
  · cases hm : in_moderate_zone v c p
    · exact Or.inr (Or.inr ⟨rfl, rfl, by rw [physTier, hn, hm]; rfl⟩)
    · exact Or.inr (Or.inl ⟨rfl, rfl, by rw [physTier, hn, hm]; rfl⟩)
  · exact Or.inl ⟨rfl, by rw [physTier, hn]; rfl⟩

/-- Registered zone, NORMAL tier, statistical stage raising: the error
    becomes the request's verdict and nothing is logged (app.py:179-204,
    no inner handler). -/
theorem physClassify_normal_stage_error (m : PhysModels) (i : PhysInput) (db : List PhysRow)
    (hz : physZoneRegistered m i.location = true)
    (hn : is_normal i.voltage i.current i.power = true)
    (e : String) (hs : physStatStage m i = .error e) :
    physClassify m i db =
      { result := .err ("Error: " ++ e), tier := some "NORMAL (Safe Range)",
        statInvoked := true, db := db, history := recentPredictions db } := by
  have ht : physTier i.voltage i.current i.power = "NORMAL (Safe Range)" := by
    rw [physTier, hn]; rfl
  rw [physClassify, hz]
  simp only [if_true, ht, hs]
  rfl

/-- Registered zone, NORMAL tier, statistical stage returning a status:
    that status is the verdict and is logged (app.py:179-202). -/
theorem physClassify_normal_stage_ok (m : PhysModels) (i : PhysInput) (db : List PhysRow)
    (hz : physZoneRegistered m i.location = true)
    (hn : is_normal i.voltage i.current i.power = true)
    (s : String) (hs : physStatStage m i = .ok s) :
    physClassify m i db =
      { result := .view s i.voltage i.current i.power, tier := some "NORMAL (Safe Range)",
        statInvoked := true,
        db := insertPrediction db ⟨i.sensor_id, i.location, i.voltage, i.current, i.power, s⟩,
        history := recentPredictions
          (insertPrediction db ⟨i.sensor_id, i.location, i.voltage, i.current, i.power, s⟩) } := by
  have ht : physTier i.voltage i.current i.power = "NORMAL (Safe Range)" := by
    rw [physTier, hn]; rfl
  rw [physClassify, hz]
  simp only [if_true, ht, hs]
  rfl

/-- Registered zone with a non-NORMAL tier: the tier is the final
    verdict, the statistical stage is not entered, the event is logged
    (app.py:172-202). -/
theorem physClassify_not_normal (m : PhysModels) (i : PhysInput) (db : List PhysRow)
    (hz : physZoneRegistered m i.location = true)
    (hn : is_normal i.voltage i.current i.power = false) :
    physClassify m i db =
      { result := .view (physTier i.voltage i.current i.power) i.voltage i.current i.power,
        tier := some (physTier i.voltage i.current i.power), statInvoked := false,
        db := insertPrediction db ⟨i.sensor_id, i.location, i.voltage, i.current, i.power,
          physTier i.voltage i.current i.power⟩,
        history := recentPredictions (insertPrediction db
          ⟨i.sensor_id, i.location, i.voltage, i.current, i.power,
            physTier i.voltage i.current i.power⟩) } := by
  rw [physClassify, hz]
  simp only [if_true]
  have hne : (physTier i.voltage i.current i.power == "NORMAL (Safe Range)") = false := by
    rw [physTier, hn]
    cases hm : in_moderate_zone i.voltage i.current i.power
    · rfl
    · rfl
  rw [hne]
  rfl

/-- Unregistered zone: the UNKNOWN_ZONE verdict carrying the zone id is
    returned and logged; no tier is computed (app.py:190-202). -/
theorem physClassify_unknown (m : PhysModels) (i : PhysInput) (db : List PhysRow)
    (hz : physZoneRegistered m i.location = false) :
    physClassify m i db =
      { result := .view ("Unknown Zone " ++ toString i.location ++ " (No Model)")
          i.voltage i.current i.power,
        tier := none, statInvoked := false,
        db := insertPrediction db ⟨i.sensor_id, i.location, i.voltage, i.current, i.power,
          "Unknown Zone " ++ toString i.location ++ " (No Model)"⟩,
        history := recentPredictions (insertPrediction db
          ⟨i.sensor_id, i.location, i.voltage, i.current, i.power,
            "Unknown Zone " ++ toString i.location ++ " (No Model)"⟩) } := by
  rw [physClassify, hz]
  rfl

/-! ## Shape lemmas for the cyber endpoint -/

/-- A parsed form reduces the endpoint to the classification body. -/
theorem cyber_predictor_parsed (m : CyberModels) (form : List (String × String))
    (db : List CyberRow) (i : CyberInput) (hp : parseCyberForm form = .ok i) :
    cyber_predictor m form db = cyberClassify m i db := by
  unfold cyber_predictor
  rw [hp]

/-- A malformed form yields the error result and leaves the log alone. -/
theorem cyber_predictor_malformed (m : CyberModels) (form : List (String × String))
    (db : List CyberRow) (msg : String) (hp : parseCyberForm form = .error msg) :
    cyber_predictor m form db =
      { result := .err ("Error: " ++ msg), hybridConsulted := false,
        db := db, history := recentCyberLogs db } := by
  unfold cyber_predictor
  rw [hp]

/-- Rule 1 (app.py:249): an oversized packet short-circuits. -/
theorem cyberClassify_oversized (m : CyberModels) (i : CyberInput) (db : List CyberRow)
    (h1 : Frac.blt (Frac.ofInt 1500) i.packet_length = true) :
    cyberClassify m i db = cyberFinish i "MALICIOUS (Oversized Packet)" false db := by
  rw [cyberClassify, h1]
  rfl

/-- Rule 2 (app.py:251): a blacklisted source short-circuits. -/
theorem cyberClassify_blacklisted (m : CyberModels) (i : CyberInput) (db : List CyberRow)
    (h1 : Frac.blt (Frac.ofInt 1500) i.packet_length = false)
    (h2 : strHas i.source_ip "666" = true) :
    cyberClassify m i db = cyberFinish i "BLACKLISTED IP DETECTED" false db := by
  rw [cyberClassify, h1, h2]
  rfl

/-- Rule 3 (app.py:253): a large UDP packet short-circuits. -/
theorem cyberClassify_ddos (m : CyberModels) (i : CyberInput) (db : List CyberRow)
    (h1 : Frac.blt (Frac.ofInt 1500) i.packet_length = false)
    (h2 : strHas i.source_ip "666" = false)
    (h3 : (strUpper i.protocol == "UDP" && Frac.blt (Frac.ofInt 800) i.packet_length) = true) :
    cyberClassify m i db = cyberFinish i "POSSIBLE DDOS (UDP Flood)" false db := by
  rw [cyberClassify, h1, h2, h3]
  rfl

/-- All heuristics pass and the hybrid classifier is present: the
    guarded statistical stage decides the verdict (app.py:255-287). -/
theorem cyberClassify_hybrid (m : CyberModels) (i : CyberInput) (db : List CyberRow)
    (h1 : Frac.blt (Frac.ofInt 1500) i.packet_length = false)
    (h2 : strHas i.source_ip "666" = false)
    (h3 : (strUpper i.protocol == "UDP" && Frac.blt (Frac.ofInt 800) i.packet_length) = false)
    (rf : RFModel) (h4 : m.rf = some rf) :
    cyberClassify m i db =
      cyberFinish i
        (cyberStatStage rf (m.encoders.getD []) m.scaler
          i.source_ip i.dest_ip i.protocol i.packet_length) true db := by
  rw [cyberClassify, h1, h2, h3, h4]
  rfl

/-- All heuristics pass and no hybrid classifier is loaded: the verdict
    stays SAFE TRAFFIC (app.py:247, 255). -/
theorem cyberClassify_no_model (m : CyberModels) (i : CyberInput) (db : List CyberRow)
    (h1 : Frac.blt (Frac.ofInt 1500) i.packet_length = false)
    (h2 : strHas i.source_ip "666" = false)
    (h3 : (strUpper i.protocol == "UDP" && Frac.blt (Frac.ofInt 800) i.packet_length) = false)
    (h4 : m.rf = none) :
    cyberClassify m i db = cyberFinish i "SAFE TRAFFIC" false db := by
  rw [cyberClassify, h1, h2, h3, h4]
  rfl

/-- The guarded stage leaves SAFE TRAFFIC unless the scaler and the
    classifier both succeed and the prediction equals 1
    (app.py:281-287). -/
theorem cyberStatStage_safe_cases (rf : RFModel) (encoders : List (String × Encoder))
    (scaler? : Option CyberScaler) (src dst proto : String) (pkt_len : Frac) :
    (scaler? = none → cyberStatStage rf encoders scaler? src dst proto pkt_len = "SAFE TRAFFIC") ∧
    (∀ sc : CyberScaler, scaler? = some sc →
      (∀ e, sc.transform (cyberFeatures encoders src dst proto pkt_len) = .error e →
        cyberStatStage rf encoders scaler? src dst proto pkt_len = "SAFE TRAFFIC") ∧
      (∀ xs, sc.transform (cyberFeatures encoders src dst proto pkt_len) = .ok xs →
        (∀ e, rf.predict xs = .error e →
          cyberStatStage rf encoders scaler? src dst proto pkt_len = "SAFE TRAFFIC") ∧
        (∀ p, rf.predict xs = .ok p → p ≠ 1 →
          cyberStatStage rf encoders scaler? src dst proto pkt_len = "SAFE TRAFFIC") ∧
        (rf.predict xs = .ok 1 →
          cyberStatStage rf encoders scaler? src dst proto pkt_len
            = "ANOMALY DETECTED (Hybrid AI)"))) := by
  refine ⟨fun h => by rw [cyberStatStage.eq_def, h], fun sc hsc => ⟨fun e he => ?_, fun xs hxs => ?_⟩⟩
  · rw [cyberStatStage.eq_def, hsc]
    simp only [he]
  · refine ⟨fun e he => ?_, fun p hp hp1 => ?_, fun h1 => ?_⟩
    · rw [cyberStatStage.eq_def, hsc]
      simp only [hxs, he]
    · rw [cyberStatStage.eq_def, hsc]
      simp only [hxs, hp]
      have : (p == 1) = false := by
        cases hb : p == 1
        · rfl
        · exact absurd (by simpa using hb) hp1
      rw [this]
      rfl
    · rw [cyberStatStage.eq_def, hsc]
      simp only [hxs, h1]
      rfl

/-- The stage verdict is always one of the two valid statuses. -/
theorem cyberStatStage_valid (rf : RFModel) (encoders : List (String × Encoder))
    (scaler? : Option CyberScaler) (src dst proto : String) (pkt_len : Frac) :
    cyberStatStage rf encoders scaler? src dst proto pkt_len = "SAFE TRAFFIC" ∨
    cyberStatStage rf encoders scaler? src dst proto pkt_len = "ANOMALY DETECTED (Hybrid AI)" := by
  rw [cyberStatStage.eq_def]
  dsimp only
  cases scaler? with
  | none => exact Or.inl rfl
  | some sc =>
    dsimp only
    cases hxs : sc.transform (cyberFeatures encoders src dst proto pkt_len) with
    | error e => exact Or.inl rfl
    | ok xs =>
      dsimp only
      cases hp : rf.predict xs with
      | error e => exact Or.inl rfl
      | ok p =>
        dsimp only
        cases hb : p == 1
        · exact Or.inl (by simp [hb])
        · exact Or.inr (by simp [hb])

/-! ## Event-log lemmas -/

/-- Folding consecutive inserts appends the rows built from the new
    events with consecutive store-assigned ids. -/
theorem foldl_insert_eq_mkRows {α β : Type} (rowOf : Nat → α → β)
    (es : List α) (db : List β) :
    es.foldl (fun d e => d ++ [rowOf (d.length + 1) e]) db
      = db ++ mkRows rowOf db.length es := by
  induction es generalizing db with
  | nil => simp [mkRows]
  | cons e es ih =>
    rw [List.foldl_cons, ih, mkRows]
    simp

/-- `mkRows` preserves the number of events. -/
theorem length_mkRows {α β : Type} (rowOf : Nat → α → β) (n : Nat) (es : List α) :
    (mkRows rowOf n es).length = es.length := by
  induction es generalizing n with
  | nil => rfl
  | cons e es ih => simp [mkRows, ih]

/-- The ids of `mkRows` are the consecutive integers starting above `n`. -/
theorem map_idOf_mkRows {α β : Type} (rowOf : Nat → α → β) (idOf : β → Nat)
    (h : ∀ k e, idOf (rowOf k e) = k) (n : Nat) (es : List α) :
    (mkRows rowOf n es).map idOf = List.range' (n + 1) es.length := by
  induction es generalizing n with
  | nil => rfl
  | cons e es ih =>
    rw [mkRows, List.map_cons, h, ih, List.length_cons, List.range'_succ]

/-- Membership in `mkRows`: each row is the image of the event at its
    position, with the position-determined id. -/
theorem mem_mkRows {α β : Type} (rowOf : Nat → α → β) (n : Nat) (es : List α) (r : β) :
    r ∈ mkRows rowOf n es ↔
      ∃ i, ∃ h : i < es.length, r = rowOf (n + i + 1) (es.get ⟨i, h⟩) := by
  induction es generalizing n with
  | nil => simp [mkRows]
  | cons e es ih =>
    rw [mkRows, List.mem_cons, ih]
    constructor
    · rintro (rfl | ⟨i, hi, rfl⟩)
      · exact ⟨0, by simp, by simp⟩
      · refine ⟨i + 1, by simpa using hi, ?_⟩
        have harith : n + 1 + i + 1 = n + (i + 1) + 1 := by omega
        rw [← harith]
        rfl
    · rintro ⟨i, hi, rfl⟩
      cases i with
      | zero => exact Or.inl (by simp)
      | succ j =>
        refine Or.inr ⟨j, by simpa using hi, ?_⟩
        have harith : n + 1 + j + 1 = n + (j + 1) + 1 := by omega
        rw [harith]
        rfl

/-- The rows of `mkRows` have strictly increasing ids. -/
theorem pairwise_mkRows {α β : Type} (rowOf : Nat → α → β) (idOf : β → Nat)
    (h : ∀ k e, idOf (rowOf k e) = k) (n : Nat) (es : List α) :
    List.Pairwise (fun a b => idOf a < idOf b) (mkRows rowOf n es) := by
  have hm : List.Pairwise (· < ·) ((mkRows rowOf n es).map idOf) := by
    rw [map_idOf_mkRows rowOf idOf h n es]
    exact List.pairwise_lt_range' (n + 1) es.length
  exact (List.pairwise_map).mp hm

/-- Reversing then truncating preserves strictly decreasing ids. -/
theorem pairwise_desc_take_reverse {β : Type} (idOf : β → Nat) (l : List β) (k : Nat)
    (h : List.Pairwise (fun a b => idOf a < idOf b) l) :
    List.Pairwise (fun a b => idOf b < idOf a) ((l.reverse.take k)) := by
  have hrev : List.Pairwise (fun a b => idOf b < idOf a) l.reverse := by
    rw [List.pairwise_reverse]
    exact h
  exact hrev.sublist (List.take_sublist k l.reverse)

/-! ## Small helper lemmas -/

/-- A Bool that is not true is false. -/
theorem bool_eq_false {b : Bool} (h : ¬ b = true) : b = false := by
  cases b
  · rfl
  · exact absurd rfl h

/-- The status the cyber endpoint renders is the status it was given. -/
theorem cyberFinish_statusOf (i : CyberInput) (s : String) (b : Bool) (db : List CyberRow) :
    (cyberFinish i s b db).result.statusOf = s := rfl

/-- The consultation flag survives `cyberFinish`. -/
theorem cyberFinish_consulted (i : CyberInput) (s : String) (b : Bool) (db : List CyberRow) :
    (cyberFinish i s b db).hybridConsulted = b := rfl

/-- `cyberFinish` appends exactly the one event of this request. -/
theorem cyberFinish_db (i : CyberInput) (s : String) (b : Bool) (db : List CyberRow) :
    (cyberFinish i s b db).db =
      insertCyberLog db ⟨i.source_ip, i.dest_ip, i.protocol, i.packet_length, s⟩ := rfl

/-- Translate the oversize guard to the rational order. -/
theorem toRat_gt_1500_of_blt {b : Frac} (hb : 0 < b.den)
    (h : Frac.blt (Frac.ofInt 1500) b = true) : (1500 : ℚ) < b.toRat := by
  have h2 := (Frac.blt_iff (Frac.ofInt 1500) b (by decide) hb).mp h
  have e : (Frac.ofInt 1500).toRat = (1500 : ℚ) := by norm_num [Frac.toRat, Frac.ofInt]
  rw [e] at h2
  exact h2

/-- A reading inside the strict bounds is inside the expanded bounds. -/
theorem in_moderate_of_is_normal (v c p : Frac) (hv : 0 < v.den) (hc : 0 < c.den)
    (hp : 0 < p.den) (h : is_normal v c p = true) : in_moderate_zone v c p = true := by
  rw [is_normal_iff v c p hv hc hp] at h
  rw [in_moderate_zone_iff v c p hv hc hp]
  obtain ⟨⟨h1, h2⟩, ⟨h3, h4⟩, h5, h6⟩ := h
  refine ⟨⟨by linarith, by linarith⟩, ⟨by linarith, by linarith⟩, by linarith, by linarith⟩

/-- On a registered zone the rule tier is always recorded, whatever the
    state of the zone's scaler or detector. -/
theorem physClassify_tier (m : PhysModels) (i : PhysInput) (db : List PhysRow)
    (hz : physZoneRegistered m i.location = true) :
    (physClassify m i db).tier = some (physTier i.voltage i.current i.power) := by
  cases hn : is_normal i.voltage i.current i.power
  · rw [physClassify_not_normal m i db hz hn]
  · have ht : physTier i.voltage i.current i.power = "NORMAL (Safe Range)" := by
      rw [physTier, hn]
      rfl
    cases hs : physStatStage m i with
    | error e => rw [physClassify_normal_stage_error m i db hz hn e hs, ht]
    | ok s => rw [physClassify_normal_stage_ok m i db hz hn s hs, ht]

/-! ## Claims -/

/-- C1: for every physical classification request on a zone present in
the registry, the statistical stage (scaler transform and detector
predict) is entered if and only if the rule-based tier is NORMAL; a
MODERATE ALERT or CRITICAL ALERT tier is the final verdict and is never
replaced by a model output. -/
theorem C1_statistical_stage_iff_normal (m : PhysModels) (form : List (String × String))
    (db : List PhysRow) (i : PhysInput)
    (hp : parsePhysForm form = .ok i)
    (hz : physZoneRegistered m i.location = true) :
    ((physical_predictor m form db).statInvoked = true ↔
        physTier i.voltage i.current i.power = "NORMAL (Safe Range)") ∧
    (physTier i.voltage i.current i.power = "MODERATE ALERT" →
        (physical_predictor m form db).result =
          .view "MODERATE ALERT" i.voltage i.current i.power) ∧
    (physTier i.voltage i.current i.power = "CRITICAL ALERT" →
        (physical_predictor m form db).result =
          .view "CRITICAL ALERT" i.voltage i.current i.power) := by
  rw [physical_predictor_parsed m form db i hp]
  rcases physTier_cases i.voltage i.current i.power with ⟨hn, ht⟩ | ⟨hn, hm', ht⟩ | ⟨hn, hm', ht⟩
  · refine ⟨?_, ?_, ?_⟩
    · cases hs : physStatStage m i with
      | error e =>
        rw [physClassify_normal_stage_error m i db hz hn e hs, ht]
        exact ⟨fun _ => rfl, fun _ => rfl⟩
      | ok s =>
        rw [physClassify_normal_stage_ok m i db hz hn s hs, ht]
        exact ⟨fun _ => rfl, fun _ => rfl⟩
    · intro hcon
      rw [ht] at hcon
      exact absurd hcon (by decide)
    · intro hcon
      rw [ht] at hcon
      exact absurd hcon (by decide)
  · rw [physClassify_not_normal m i db hz hn]
    refine ⟨?_, fun _ => ?_, fun hcon => ?_⟩
    · rw [ht]
      constructor
      · intro hcontra
        exact absurd hcontra (by simp)
      · intro hcontra
        exact absurd hcontra (by decide)
    · rw [ht]
    · rw [ht] at hcon
      exact absurd hcon (by decide)
  · rw [physClassify_not_normal m i db hz hn]
    refine ⟨?_, fun hcon => ?_, fun _ => ?_⟩
    · rw [ht]
      constructor
      · intro hcontra
        exact absurd hcontra (by simp)
      · intro hcontra
        exact absurd hcontra (by decide)
    · rw [ht] at hcon
      exact absurd hcon (by decide)
    · rw [ht]

/-- Witness for C1 at a concrete registered in-range request. -/
theorem C1_statistical_stage_iff_normal_witness :
    parsePhysForm goodPhysForm = Except.ok goodPhysInput ∧
    physZoneRegistered regZone1 goodPhysInput.location = true ∧
    ((physical_predictor regZone1 goodPhysForm []).statInvoked = true ↔
      physTier goodPhysInput.voltage goodPhysInput.current goodPhysInput.power
        = "NORMAL (Safe Range)") :=
  ⟨by decide, by decide,
    (C1_statistical_stage_iff_normal regZone1 goodPhysForm [] goodPhysInput
      (by decide) (by decide)).1⟩

/-- C3: for every reading in a registered zone, the tier is NORMAL when
voltage, current and power are each inside their strict bounds;
MODERATE ALERT when some value leaves the strict bounds but all stay
inside the bounds expanded by the relative tolerance 0.001 on each
side; CRITICAL ALERT otherwise. The tier is a pure function of the
three values and the bounds: it does not depend on the registry, the
other request fields, or the event-log state, and a repeated call on
identical input (even after the first call's log append) computes the
same tier. -/
theorem C3_tier_three_way (v c p : Frac) (hv : 0 < v.den) (hc : 0 < c.den) (hp : 0 < p.den) :
    ((((210 : ℚ) ≤ v.toRat ∧ v.toRat ≤ 245) ∧
      ((5 / 2 : ℚ) ≤ c.toRat ∧ c.toRat ≤ 15 / 2) ∧
      ((1 / 2 : ℚ) ≤ p.toRat ∧ p.toRat ≤ 9 / 5)) →
        physTier v c p = "NORMAL (Safe Range)") ∧
    (¬ (((210 : ℚ) ≤ v.toRat ∧ v.toRat ≤ 245) ∧
        ((5 / 2 : ℚ) ≤ c.toRat ∧ c.toRat ≤ 15 / 2) ∧
        ((1 / 2 : ℚ) ≤ p.toRat ∧ p.toRat ≤ 9 / 5)) →
      (((210 * (1 - 1 / 1000) : ℚ) ≤ v.toRat ∧ v.toRat ≤ 245 * (1 + 1 / 1000)) ∧
        ((5 / 2 * (1 - 1 / 1000) : ℚ) ≤ c.toRat ∧ c.toRat ≤ 15 / 2 * (1 + 1 / 1000)) ∧
        ((1 / 2 * (1 - 1 / 1000) : ℚ) ≤ p.toRat ∧ p.toRat ≤ 9 / 5 * (1 + 1 / 1000))) →
        physTier v c p = "MODERATE ALERT") ∧
    (¬ (((210 * (1 - 1 / 1000) : ℚ) ≤ v.toRat ∧ v.toRat ≤ 245 * (1 + 1 / 1000)) ∧
        ((5 / 2 * (1 - 1 / 1000) : ℚ) ≤ c.toRat ∧ c.toRat ≤ 15 / 2 * (1 + 1 / 1000)) ∧
        ((1 / 2 * (1 - 1 / 1000) : ℚ) ≤ p.toRat ∧ p.toRat ≤ 9 / 5 * (1 + 1 / 1000))) →
        physTier v c p = "CRITICAL ALERT") ∧
    (∀ (m : PhysModels) (i : PhysInput) (db : List PhysRow),
      i.voltage = v → i.current = c → i.power = p →
      physZoneRegistered m i.location = true →
      (physClassify m i db).tier = some (physTier v c p) ∧
      (physClassify m i (physClassify m i db).db).tier = some (physTier v c p)) := by
  refine ⟨fun h => ?_, fun hns hexp => ?_, fun hnexp => ?_,
    fun m i db hV hC hP hz => ?_⟩
  · have hn : is_normal v c p = true := (is_normal_iff v c p hv hc hp).mpr h
    rw [physTier, hn]
    rfl
  · have hn : is_normal v c p = false :=
      bool_eq_false (fun hb => hns ((is_normal_iff v c p hv hc hp).mp hb))
    have hm : in_moderate_zone v c p = true :=
      (in_moderate_zone_iff v c p hv hc hp).mpr hexp
    rw [physTier, hn, hm]
    rfl
  · have hm : in_moderate_zone v c p = false :=
      bool_eq_false (fun hb => hnexp ((in_moderate_zone_iff v c p hv hc hp).mp hb))
    have hn : is_normal v c p = false := by
      cases hb : is_normal v c p
      · rfl
      · rw [in_moderate_of_is_normal v c p hv hc hp hb] at hm
        exact absurd hm (by decide)
    rw [physTier, hn, hm]
    rfl
  · subst hV
    subst hC
    subst hP
    exact ⟨physClassify_tier m i db hz, physClassify_tier m i _ hz⟩

/-- Witness for C3: purity of the tier across a repeated call. -/
theorem C3_tier_three_way_witness :
    (0 : Nat) < (⟨220, 1⟩ : Frac).den ∧
    physZoneRegistered regZone1 goodPhysInput.location = true ∧
    ((physClassify regZone1 goodPhysInput []).tier
        = some (physTier ⟨220, 1⟩ ⟨35, 10⟩ ⟨10, 10⟩) ∧
      (physClassify regZone1 goodPhysInput
          (physClassify regZone1 goodPhysInput []).db).tier
        = some (physTier ⟨220, 1⟩ ⟨35, 10⟩ ⟨10, 10⟩)) :=
  ⟨by decide, by decide,
    (C3_tier_three_way ⟨220, 1⟩ ⟨35, 10⟩ ⟨10, 10⟩ (by decide) (by decide) (by decide)).2.2.2
      regZone1 goodPhysInput [] rfl rfl rfl (by decide)⟩

/-- C4: a physical classification request whose zone id has no registry
entry returns the UNKNOWN_ZONE verdict carrying that zone id, and the
event is still appended to the physical event log with exactly that
verdict. -/
theorem C4_unknown_zone_logged (m : PhysModels) (form : List (String × String))
    (db : List PhysRow) (i : PhysInput)
    (hp : parsePhysForm form = .ok i)
    (hz : physZoneRegistered m i.location = false) :
    (physical_predictor m form db).result =
      .view ("Unknown Zone " ++ toString i.location ++ " (No Model)")
        i.voltage i.current i.power ∧
    (physical_predictor m form db).db = db ++ [physRowOf (db.length + 1)
      ⟨i.sensor_id, i.location, i.voltage, i.current, i.power,
        "Unknown Zone " ++ toString i.location ++ " (No Model)"⟩] := by
  rw [physical_predictor_parsed m form db i hp, physClassify_unknown m i db hz]
  exact ⟨rfl, rfl⟩

/-- Witness for C4 at zone 99, absent from a registry that holds zone 1. -/
theorem C4_unknown_zone_logged_witness :
    parsePhysForm zone99PhysForm = Except.ok zone99PhysInput ∧
    physZoneRegistered regZone1 zone99PhysInput.location = false ∧
    ((physical_predictor regZone1 zone99PhysForm []).result =
        .view ("Unknown Zone " ++ toString zone99PhysInput.location ++ " (No Model)")
          zone99PhysInput.voltage zone99PhysInput.current zone99PhysInput.power ∧
      (physical_predictor regZone1 zone99PhysForm []).db =
        [] ++ [physRowOf ((List.length ([] : List PhysRow)) + 1)
          ⟨zone99PhysInput.sensor_id, zone99PhysInput.location, zone99PhysInput.voltage,
            zone99PhysInput.current, zone99PhysInput.power,
            "Unknown Zone " ++ toString zone99PhysInput.location ++ " (No Model)"⟩]) :=
  ⟨by decide, by decide,
    C4_unknown_zone_logged regZone1 zone99PhysForm [] zone99PhysInput (by decide) (by decide)⟩

/-- C2: cyber rules are evaluated in strict priority order with
short-circuit on first match — oversize beats blacklist beats UDP
flood; with no rule match the verdict is SAFE whenever the hybrid model
is unavailable or inconclusive; and after any rule match the hybrid
model is never consulted. -/
theorem C2_cyber_rule_priority (m : CyberModels) (form : List (String × String))
    (db : List CyberRow) (i : CyberInput)
    (hp : parseCyberForm form = .ok i)
    (hden : 0 < i.packet_length.den) :
    ((1500 : ℚ) < i.packet_length.toRat →
      (cyber_predictor m form db).result.statusOf = "MALICIOUS (Oversized Packet)" ∧
      (cyber_predictor m form db).hybridConsulted = false) ∧
    (¬ (1500 : ℚ) < i.packet_length.toRat → strHas i.source_ip "666" = true →
      (cyber_predictor m form db).result.statusOf = "BLACKLISTED IP DETECTED" ∧
      (cyber_predictor m form db).hybridConsulted = false) ∧
    (¬ (1500 : ℚ) < i.packet_length.toRat → strHas i.source_ip "666" = false →
      strUpper i.protocol = "UDP" → (800 : ℚ) < i.packet_length.toRat →
      (cyber_predictor m form db).result.statusOf = "POSSIBLE DDOS (UDP Flood)" ∧
      (cyber_predictor m form db).hybridConsulted = false) ∧
    (¬ (1500 : ℚ) < i.packet_length.toRat → strHas i.source_ip "666" = false →
      ¬ (strUpper i.protocol = "UDP" ∧ (800 : ℚ) < i.packet_length.toRat) →
      (m.rf = none → (cyber_predictor m form db).result.statusOf = "SAFE TRAFFIC") ∧
      (∀ rf, m.rf = some rf →
        (cyber_predictor m form db).result.statusOf =
          cyberStatStage rf (m.encoders.getD []) m.scaler
            i.source_ip i.dest_ip i.protocol i.packet_length ∧
        (cyberStatStage rf (m.encoders.getD []) m.scaler
            i.source_ip i.dest_ip i.protocol i.packet_length
              ≠ "ANOMALY DETECTED (Hybrid AI)" →
          (cyber_predictor m form db).result.statusOf = "SAFE TRAFFIC"))) := by
  rw [cyber_predictor_parsed m form db i hp]
  have hq1500 : Frac.blt (Frac.ofInt 1500) i.packet_length = true ↔
      (1500 : ℚ) < i.packet_length.toRat := by
    rw [Frac.blt_iff _ _ (by decide) hden]
    norm_num [Frac.toRat, Frac.ofInt]
  have hq800 : Frac.blt (Frac.ofInt 800) i.packet_length = true ↔
      (800 : ℚ) < i.packet_length.toRat := by
    rw [Frac.blt_iff _ _ (by decide) hden]
    norm_num [Frac.toRat, Frac.ofInt]
  refine ⟨fun h1 => ?_, fun h1 h2 => ?_, fun h1 h2 h3 h4 => ?_, fun h1 h2 h3 => ?_⟩
  · rw [cyberClassify_oversized m i db (hq1500.mpr h1)]
    exact ⟨rfl, rfl⟩
  · have hb1 : Frac.blt (Frac.ofInt 1500) i.packet_length = false :=
      bool_eq_false (fun hb => h1 (hq1500.mp hb))
    rw [cyberClassify_blacklisted m i db hb1 h2]
    exact ⟨rfl, rfl⟩
  · have hb1 : Frac.blt (Frac.ofInt 1500) i.packet_length = false :=
      bool_eq_false (fun hb => h1 (hq1500.mp hb))
    have hb3 : (strUpper i.protocol == "UDP" && Frac.blt (Frac.ofInt 800) i.packet_length)
        = true := by
      rw [Bool.and_eq_true]
      exact ⟨beq_iff_eq.mpr h3, hq800.mpr h4⟩
    rw [cyberClassify_ddos m i db hb1 h2 hb3]
    exact ⟨rfl, rfl⟩
  · have hb1 : Frac.blt (Frac.ofInt 1500) i.packet_length = false :=
      bool_eq_false (fun hb => h1 (hq1500.mp hb))
    have hb3 : (strUpper i.protocol == "UDP" && Frac.blt (Frac.ofInt 800) i.packet_length)
        = false := by
      cases hu : (strUpper i.protocol == "UDP")
      · rfl
      · cases h8 : Frac.blt (Frac.ofInt 800) i.packet_length
        · rfl
        · exact absurd ⟨beq_iff_eq.mp hu, hq800.mp h8⟩ h3
    refine ⟨fun hrf => ?_, fun rf hrf => ?_⟩
    · rw [cyberClassify_no_model m i db hb1 h2 hb3 hrf]
      rfl
    · rw [cyberClassify_hybrid m i db hb1 h2 hb3 rf hrf]
      refine ⟨rfl, fun hnot => ?_⟩
      rcases cyberStatStage_valid rf (m.encoders.getD []) m.scaler
          i.source_ip i.dest_ip i.protocol i.packet_length with hsafe | hanom
      · rw [cyberFinish_statusOf, hsafe]
      · exact absurd hanom hnot

/-- Witness for C2: a 1501-byte packet is flagged oversized without
consulting the hybrid model, and a plain packet with no model loaded
stays SAFE. -/
theorem C2_cyber_rule_priority_witness :
    ((cyber_predictor noCyber cform1501 []).result.statusOf = "MALICIOUS (Oversized Packet)" ∧
      (cyber_predictor noCyber cform1501 []).hybridConsulted = false) ∧
    (cyber_predictor noCyber cform100 []).result.statusOf = "SAFE TRAFFIC" :=
  ⟨(C2_cyber_rule_priority noCyber cform1501 [] cin1501 (by decide) (by decide)).1
      (toRat_gt_1500_of_blt (by decide) (by decide)),
    ((C2_cyber_rule_priority noCyber cform100 [] cin100 (by decide) (by decide)).2.2.2
      (fun hlt => absurd ((Frac.blt_iff (Frac.ofInt 1500) (⟨100, 1⟩ : Frac)
          (by decide) (by decide)).mpr
        (by rw [show (Frac.ofInt 1500).toRat = (1500 : ℚ) by norm_num [Frac.toRat, Frac.ofInt]]
            exact hlt))
        (by decide))
      (by decide)
      (fun hand => absurd ((Frac.blt_iff (Frac.ofInt 800) (⟨100, 1⟩ : Frac)
          (by decide) (by decide)).mpr
        (by rw [show (Frac.ofInt 800).toRat = (800 : ℚ) by norm_num [Frac.toRat, Frac.ofInt]]
            exact hand.2))
        (by decide))).1 rfl⟩

/-- C5 counterexample: a physical request on a registered zone whose
scaler is missing from the scaler dictionary is NOT recovered locally —
the verdict is the raw error string, not a heuristic fallback, and no
event is appended to the log, refuting the claim for the physical
domain. -/
theorem C5_counterexample :
    (physical_predictor regZone1NoScaler goodPhysForm []).result =
      PhysResult.err "Error: KeyError: 1" ∧
    (physical_predictor regZone1NoScaler goodPhysForm []).db = [] := by
  decide

/-- C5 amended: in the cyber domain, a model sub-component that is
missing or failing at inference time is recovered locally — the verdict
falls back to the heuristic SAFE TRAFFIC verdict and exactly one event
is still logged; in the physical domain, a statistical-stage failure
aborts the request with an error verdict and no event is logged. -/
theorem C5_amended_recovery_cyber_only
    (mc : CyberModels) (formc : List (String × String)) (dbc : List CyberRow)
    (ic : CyberInput) (hpc : parseCyberForm formc = .ok ic)
    (h1 : Frac.blt (Frac.ofInt 1500) ic.packet_length = false)
    (h2 : strHas ic.source_ip "666" = false)
    (h3 : (strUpper ic.protocol == "UDP" && Frac.blt (Frac.ofInt 800) ic.packet_length) = false)
    (rf : RFModel) (h4 : mc.rf = some rf)
    (m : PhysModels) (form : List (String × String)) (db : List PhysRow)
    (i : PhysInput) (hp : parsePhysForm form = .ok i)
    (hz : physZoneRegistered m i.location = true)
    (hn : is_normal i.voltage i.current i.power = true) :
    ((mc.scaler = none →
        (cyber_predictor mc formc dbc).result.statusOf = "SAFE TRAFFIC") ∧
     (∀ sc, mc.scaler = some sc → ∀ e,
        sc.transform (cyberFeatures (mc.encoders.getD [])
          ic.source_ip ic.dest_ip ic.protocol ic.packet_length) = .error e →
        (cyber_predictor mc formc dbc).result.statusOf = "SAFE TRAFFIC") ∧
     (∀ sc xs, mc.scaler = some sc →
        sc.transform (cyberFeatures (mc.encoders.getD [])
          ic.source_ip ic.dest_ip ic.protocol ic.packet_length) = .ok xs →
        ∀ e, rf.predict xs = .error e →
        (cyber_predictor mc formc dbc).result.statusOf = "SAFE TRAFFIC") ∧
     (cyber_predictor mc formc dbc).db.length = dbc.length + 1) ∧
    (∀ e, physStatStage m i = .error e →
      (physical_predictor m form db).result = .err ("Error: " ++ e) ∧
      (physical_predictor m form db).db = db) := by
  rw [cyber_predictor_parsed mc formc dbc ic hpc,
    cyberClassify_hybrid mc ic dbc h1 h2 h3 rf h4,
    physical_predictor_parsed m form db i hp]
  have hstage := cyberStatStage_safe_cases rf (mc.encoders.getD []) mc.scaler
    ic.source_ip ic.dest_ip ic.protocol ic.packet_length
  refine ⟨⟨fun hsc => ?_, fun sc hsc e he => ?_, fun sc xs hsc hxs e he => ?_, ?_⟩,
    fun e hs => ?_⟩
  · rw [cyberFinish_statusOf, hstage.1 hsc]
  · rw [cyberFinish_statusOf, ((hstage.2 sc hsc).1 e he)]
  · rw [cyberFinish_statusOf, (((hstage.2 sc hsc).2 xs hxs).1 e he)]
  · rw [cyberFinish_db]
    simp [insertCyberLog]
  · rw [physClassify_normal_stage_error m i db hz hn e hs]
    exact ⟨rfl, rfl⟩

/-- Witness for the amended C5: a raising cyber scaler degrades to SAFE
TRAFFIC with one event logged, while the same kind of failure on the
physical side aborts unlogged. -/
theorem C5_amended_recovery_cyber_only_witness :
    (cyber_predictor cyberFailScaler cform100 []).result.statusOf = "SAFE TRAFFIC" ∧
    (cyber_predictor cyberFailScaler cform100 []).db.length = List.length ([] : List CyberRow) + 1 ∧
    (physical_predictor regZone1NoScaler goodPhysForm []).result =
      PhysResult.err ("Error: " ++ "KeyError: 1") ∧
    (physical_predictor regZone1NoScaler goodPhysForm []).db = [] := by
  have h := C5_amended_recovery_cyber_only cyberFailScaler cform100 [] cin100
    (by decide) (by decide) (by decide) (by decide) rf1 rfl
    regZone1NoScaler goodPhysForm [] goodPhysInput (by decide) (by decide) (by decide)
  have hphys := h.2 "KeyError: 1" (by decide)
  exact ⟨h.1.2.1 failCyberScaler rfl "feature mismatch" rfl, h.1.2.2.2, hphys.1, hphys.2⟩

/-- C6 counterexample: an in-bounds reading aimed at a zone with no
registry entry is assigned NO tier — the verdict is the UNKNOWN_ZONE
string, none of the three tier strings — refuting the claim that a
reading is tiered even when the zone's model is absent. -/
theorem C6_counterexample :
    (physical_predictor regZone1 zone99PhysForm []).tier = none ∧
    (physical_predictor regZone1 zone99PhysForm []).result.statusOf
      = "Unknown Zone 99 (No Model)" ∧
    (physical_predictor regZone1 zone99PhysForm []).result.statusOf ≠ "NORMAL (Safe Range)" ∧
    (physical_predictor regZone1 zone99PhysForm []).result.statusOf ≠ "MODERATE ALERT" ∧
    (physical_predictor regZone1 zone99PhysForm []).result.statusOf ≠ "CRITICAL ALERT" := by
  decide

/-- C6 amended: on a registered zone the rule checks run before any
statistical model is consulted and never fail due to missing model
artifacts — a tier is assigned whatever the state of the zone's scaler
and detector, and the statistical stage is entered only when that tier
is NORMAL; on an unregistered zone no tier is assigned and the verdict
is the UNKNOWN_ZONE string. -/
theorem C6_amended_tier_for_registered_zones (m : PhysModels)
    (form : List (String × String)) (db : List PhysRow) (i : PhysInput)
    (hp : parsePhysForm form = .ok i) :
    (physZoneRegistered m i.location = true →
      (physical_predictor m form db).tier
          = some (physTier i.voltage i.current i.power) ∧
      ((physical_predictor m form db).statInvoked = true →
        physTier i.voltage i.current i.power = "NORMAL (Safe Range)")) ∧
    (physZoneRegistered m i.location = false →
      (physical_predictor m form db).tier = none ∧
      (physical_predictor m form db).result.statusOf =
        "Unknown Zone " ++ toString i.location ++ " (No Model)") := by
  rw [physical_predictor_parsed m form db i hp]
  refine ⟨fun hz => ⟨physClassify_tier m i db hz, ?_⟩, fun hz => ?_⟩
  · intro hsi
    cases hn : is_normal i.voltage i.current i.power
    · rw [physClassify_not_normal m i db hz hn] at hsi
      exact absurd hsi (by simp)
    · rw [physTier, hn]
      rfl
  · rw [physClassify_unknown m i db hz]
    exact ⟨rfl, rfl⟩

/-- Witness for the amended C6: zone 1 is tiered even with its scaler
missing; zone 99 gets no tier. -/
theorem C6_amended_tier_for_registered_zones_witness :
    ((physical_predictor regZone1NoScaler goodPhysForm []).tier
        = some (physTier goodPhysInput.voltage goodPhysInput.current goodPhysInput.power) ∧
      ((physical_predictor regZone1NoScaler goodPhysForm []).statInvoked = true →
        physTier goodPhysInput.voltage goodPhysInput.current goodPhysInput.power
          = "NORMAL (Safe Range)")) ∧
    ((physical_predictor regZone1 zone99PhysForm []).tier = none ∧
      (physical_predictor regZone1 zone99PhysForm []).result.statusOf =
        "Unknown Zone " ++ toString zone99PhysInput.location ++ " (No Model)") :=
  ⟨(C6_amended_tier_for_registered_zones regZone1NoScaler goodPhysForm [] goodPhysInput
      (by decide)).1 (by decide),
    (C6_amended_tier_for_registered_zones regZone1 zone99PhysForm [] zone99PhysInput
      (by decide)).2 (by decide)⟩

/-- C7: a request whose form is missing a required field or fails
numeric coercion returns a verdict string embedding the error message
and appends nothing to the event log, in both domains. -/
theorem C7_malformed_input_not_logged (m : PhysModels) (mc : CyberModels)
    (form formc : List (String × String)) (db : List PhysRow) (dbc : List CyberRow)
    (msg msgc : String)
    (hp : parsePhysForm form = .error msg)
    (hpc : parseCyberForm formc = .error msgc) :
    (physical_predictor m form db).result = .err ("Error: " ++ msg) ∧
    (physical_predictor m form db).db = db ∧
    (cyber_predictor mc formc dbc).result = .err ("Error: " ++ msgc) ∧
    (cyber_predictor mc formc dbc).db = dbc := by
  rw [physical_predictor_malformed m form db msg hp,
    cyber_predictor_malformed mc formc dbc msgc hpc]
  exact ⟨rfl, rfl, rfl, rfl⟩

/-- Witness for C7: empty forms in both domains. -/
theorem C7_malformed_input_not_logged_witness :
    parsePhysForm [] = Except.error "400 Bad Request: missing form field sensor_id" ∧
    parseCyberForm [] = Except.error "400 Bad Request: missing form field source_ip" ∧
    ((physical_predictor regZone1 [] [physRowOf 1 pe1]).result =
        .err ("Error: " ++ "400 Bad Request: missing form field sensor_id") ∧
      (physical_predictor regZone1 [] [physRowOf 1 pe1]).db = [physRowOf 1 pe1] ∧
      (cyber_predictor noCyber [] []).result =
        .err ("Error: " ++ "400 Bad Request: missing form field source_ip") ∧
      (cyber_predictor noCyber [] []).db = []) :=
  ⟨by decide, by decide,
    C7_malformed_input_not_logged regZone1 noCyber [] [] [physRowOf 1 pe1] []
      "400 Bad Request: missing form field sensor_id"
      "400 Bad Request: missing form field source_ip" (by decide) (by decide)⟩

/-- C8: during cyber statistical inference, a missing encoder or an
encoder failing on an unseen category yields the neutral code 0 for the
column instead of raising; the request still returns one of the two
valid statistical verdicts and exactly one event is logged. -/
theorem C8_encoder_failure_graceful (encoders : List (String × Encoder)) (col v : String)
    (mc : CyberModels) (form : List (String × String)) (db : List CyberRow)
    (i : CyberInput) (hp : parseCyberForm form = .ok i)
    (h1 : Frac.blt (Frac.ofInt 1500) i.packet_length = false)
    (h2 : strHas i.source_ip "666" = false)
    (h3 : (strUpper i.protocol == "UDP" && Frac.blt (Frac.ofInt 800) i.packet_length) = false)
    (rf : RFModel) (h4 : mc.rf = some rf) :
    (encoders.lookup col = none → encodeCol encoders col v = 0) ∧
    (∀ enc e, encoders.lookup col = some enc → enc.transform v = .error e →
      encodeCol encoders col v = 0) ∧
    ((cyber_predictor mc form db).result.statusOf = "SAFE TRAFFIC" ∨
      (cyber_predictor mc form db).result.statusOf = "ANOMALY DETECTED (Hybrid AI)") ∧
    (cyber_predictor mc form db).db.length = db.length + 1 := by
  rw [cyber_predictor_parsed mc form db i hp, cyberClassify_hybrid mc i db h1 h2 h3 rf h4]
  refine ⟨fun hl => ?_, fun enc e hl he => ?_, ?_, ?_⟩
  · rw [encodeCol, hl]
  · rw [encodeCol, hl]
    dsimp only
    rw [he]
  · rw [cyberFinish_statusOf]
    exact cyberStatStage_valid rf (mc.encoders.getD []) mc.scaler
      i.source_ip i.dest_ip i.protocol i.packet_length
  · rw [cyberFinish_db]
    simp [insertCyberLog]

/-- Witness for C8: an encoder that fails on every category. -/
theorem C8_encoder_failure_graceful_witness :
    encodeCol [("Source_IP", failEncoder)] "Source_IP" "1.1.1.1" = 0 ∧
    ((cyber_predictor cyberUnseenEncoder cform100 []).result.statusOf = "SAFE TRAFFIC" ∨
      (cyber_predictor cyberUnseenEncoder cform100 []).result.statusOf
        = "ANOMALY DETECTED (Hybrid AI)") ∧
    (cyber_predictor cyberUnseenEncoder cform100 []).db.length
      = List.length ([] : List CyberRow) + 1 := by
  have h := C8_encoder_failure_graceful [("Source_IP", failEncoder)] "Source_IP" "1.1.1.1"
    cyberUnseenEncoder cform100 [] cin100 (by decide) (by decide) (by decide) (by decide)
    rf0 rfl
  exact ⟨h.2.1 failEncoder "y contains previously unseen labels" rfl rfl, h.2.2.1, h.2.2.2⟩

/-- C9: appending N events to either domain's (initially empty) event
log and querying the recent history returns exactly min(N, 10) rows in
strictly descending id order, each row carrying exactly the fields of
the event appended at its position. -/
theorem C9_log_roundtrip (es : List PhysEvent) (cs : List CyberEvent) :
    (recentPredictions (es.foldl insertPrediction [])).length = min es.length 10 ∧
    List.Pairwise (fun a b => b.id < a.id) (recentPredictions (es.foldl insertPrediction [])) ∧
    (∀ r ∈ recentPredictions (es.foldl insertPrediction []),
      ∃ j, ∃ h : j < es.length, r = physRowOf (j + 1) (es.get ⟨j, h⟩)) ∧
    (recentCyberLogs (cs.foldl insertCyberLog [])).length = min cs.length 10 ∧
    List.Pairwise (fun a b => b.id < a.id) (recentCyberLogs (cs.foldl insertCyberLog [])) ∧
    (∀ r ∈ recentCyberLogs (cs.foldl insertCyberLog []),
      ∃ j, ∃ h : j < cs.length, r = cyberRowOf (j + 1) (cs.get ⟨j, h⟩)) := by
  have hdbp : es.foldl insertPrediction [] = mkRows physRowOf 0 es := by
    have h0 : es.foldl insertPrediction ([] : List PhysRow)
        = es.foldl (fun d e => d ++ [physRowOf (d.length + 1) e]) [] := rfl
    rw [h0, foldl_insert_eq_mkRows physRowOf es []]
    rfl
  have hdbc : cs.foldl insertCyberLog [] = mkRows cyberRowOf 0 cs := by
    have h0 : cs.foldl insertCyberLog ([] : List CyberRow)
        = cs.foldl (fun d e => d ++ [cyberRowOf (d.length + 1) e]) [] := rfl
    rw [h0, foldl_insert_eq_mkRows cyberRowOf cs []]
    rfl
  rw [hdbp, hdbc]
  refine ⟨?_, ?_, ?_, ?_, ?_, ?_⟩
  · rw [recentPredictions, List.length_take, List.length_reverse,
      length_mkRows physRowOf 0 es, Nat.min_comm]
  · exact pairwise_desc_take_reverse PhysRow.id (mkRows physRowOf 0 es) 10
      (pairwise_mkRows physRowOf PhysRow.id (fun _ _ => rfl) 0 es)
  · intro r hr
    have hr2 : r ∈ (mkRows physRowOf 0 es).reverse :=
      (List.take_sublist 10 _).subset hr
    have hr3 : r ∈ mkRows physRowOf 0 es := List.mem_reverse.mp hr2
    obtain ⟨j, hj, hrj⟩ := (mem_mkRows physRowOf 0 es r).mp hr3
    refine ⟨j, hj, ?_⟩
    rw [hrj]
    simp [Nat.zero_add]
  · rw [recentCyberLogs, List.length_take, List.length_reverse,
      length_mkRows cyberRowOf 0 cs, Nat.min_comm]
  · exact pairwise_desc_take_reverse CyberRow.id (mkRows cyberRowOf 0 cs) 10
      (pairwise_mkRows cyberRowOf CyberRow.id (fun _ _ => rfl) 0 cs)
  · intro r hr
    have hr2 : r ∈ (mkRows cyberRowOf 0 cs).reverse :=
      (List.take_sublist 10 _).subset hr
    have hr3 : r ∈ mkRows cyberRowOf 0 cs := List.mem_reverse.mp hr2
    obtain ⟨j, hj, hrj⟩ := (mem_mkRows cyberRowOf 0 cs r).mp hr3
    refine ⟨j, hj, ?_⟩
    rw [hrj]
    simp [Nat.zero_add]

/-- Witness for C9: the newest of two appended events is returned first
and is recovered, field for field, at its position. -/
theorem C9_log_roundtrip_witness :
    physRowOf 2 pe2 ∈ recentPredictions ([pe1, pe2].foldl insertPrediction []) ∧
    (∃ j, ∃ h : j < ([pe1, pe2] : List PhysEvent).length,
      physRowOf 2 pe2 = physRowOf (j + 1) (([pe1, pe2] : List PhysEvent).get ⟨j, h⟩)) :=
  ⟨by decide,
    (C9_log_roundtrip [pe1, pe2] [ce1]).2.2.1 (physRowOf 2 pe2) (by decide)⟩

/-- C10: the safe operating bounds and the tolerance are fixed
process-wide constants — voltage [210, 245], current [2.5, 7.5], power
[0.5, 1.8], tolerance 0.001 — identical for every zone and request: the
rule tier of a registered request depends only on the three readings,
not on the zone id, the registry contents, or the log state. -/
theorem C10_bounds_process_wide :
    V_MIN.toRat = 210 ∧ V_MAX.toRat = 245 ∧
    I_MIN.toRat = 5 / 2 ∧ I_MAX.toRat = 15 / 2 ∧
    P_MIN.toRat = 1 / 2 ∧ P_MAX.toRat = 9 / 5 ∧
    BUFFER_PCT.toRat = 1 / 1000 ∧
    ∀ (m m' : PhysModels) (i i' : PhysInput) (db db' : List PhysRow),
      physZoneRegistered m i.location = true →
      physZoneRegistered m' i'.location = true →
      i.voltage = i'.voltage → i.current = i'.current → i.power = i'.power →
      (physClassify m i db).tier = (physClassify m' i' db').tier := by
  refine ⟨by norm_num [Frac.toRat, V_MIN], by norm_num [Frac.toRat, V_MAX],
    by norm_num [Frac.toRat, I_MIN], by norm_num [Frac.toRat, I_MAX],
    by norm_num [Frac.toRat, P_MIN], by norm_num [Frac.toRat, P_MAX],
    by norm_num [Frac.toRat, BUFFER_PCT],
    fun m m' i i' db db' hz hz' hV hC hP => ?_⟩
  rw [physClassify_tier m i db hz, physClassify_tier m' i' db' hz', hV, hC, hP]

/-- Witness for C10: the same reading in two different zones of two
different registry states gets the same tier. -/
theorem C10_bounds_process_wide_witness :
    physZoneRegistered regZone12 goodPhysInput.location = true ∧
    physZoneRegistered regZone12 goodPhysInputZone2.location = true ∧
    (physClassify regZone12 goodPhysInput []).tier
      = (physClassify regZone12 goodPhysInputZone2 [physRowOf 1 pe1]).tier :=
  ⟨by decide, by decide,
    C10_bounds_process_wide.2.2.2.2.2.2.2 regZone12 regZone12
      goodPhysInput goodPhysInputZone2 [] [physRowOf 1 pe1]
      (by decide) (by decide) rfl rfl rfl⟩
